import Mathlib

/-!
Verification development for the scrapelex repository
(src/scraper/scrapelex.py, class EURlexScraper).

The Python source is shallowly embedded: its pure helpers become Lean
functions over `String`/`List Char`, Python `set` becomes `Finset String`,
Python `dict` lookup becomes association-list lookup, the filesystem is an
explicit oracle `String -> Bool`, the network is an explicit oracle
`Nat -> FetchOutcome`, and code that can raise returns `Except String`.
The BeautifulSoup parse tree (an external library, consumed by the source)
is represented by an already-parsed `PageModel`; every traversal/filtering
decision the source itself makes over that tree is embedded faithfully.
-/

namespace Scrapelex

/-- Decidable equality for `Except`, so that concrete runs of the fallible
embedded functions can be checked by `decide`. -/
instance exceptDecEq {α β : Type} [DecidableEq α] [DecidableEq β] :
    DecidableEq (Except α β) := fun x y =>
  match x, y with
  | Except.error a, Except.error b =>
    if h : a = b then Decidable.isTrue (by rw [h])
    else Decidable.isFalse (by intro hc; cases hc; exact h rfl)
  | Except.error _, Except.ok _ => Decidable.isFalse (by intro hc; cases hc)
  | Except.ok _, Except.error _ => Decidable.isFalse (by intro hc; cases hc)
  | Except.ok a, Except.ok b =>
    if h : a = b then Decidable.isTrue (by rw [h])
    else Decidable.isFalse (by intro hc; cases hc; exact h rfl)

/-! ### Python string primitives used by the source -/

/-- Character-level rendering of the single-character `str.replace` calls in
`EURlexScraper.__clean_text` (scrapelex.py line 171): NBSP (U+00A0) becomes a
space and the two typographic apostrophes (U+2019, U+00B4) become a plain
apostrophe (U+0027).  All three patterns are single characters, so the chain
of `str.replace` calls is exactly a character map. -/
def cleanChar (c : Char) : Char :=
  if c = Char.ofNat 160 then ' '
  else if c = Char.ofNat 8217 then Char.ofNat 39
  else if c = Char.ofNat 180 then Char.ofNat 39
  else c

/-- Embedding of `EURlexScraper.__clean_text` (scrapelex.py lines 164-171). -/
def cleanText (s : String) : String := ⟨s.data.map cleanChar⟩

/-- Boolean prefix test on character lists (helper for the embedding of
Python `str.split`). -/
def isPrefixChars : List Char → List Char → Bool
  | [], _ => true
  | _ :: _, [] => false
  | a :: as, b :: bs => a = b && isPrefixChars as bs

/-- Worker for the embedding of Python `str.split(pat)` with a non-empty
pattern `p :: ps`: scan the character list, cutting at every occurrence of
the pattern (leftmost, non-overlapping), accumulating the current piece in
reverse in `acc`.  The recursion is driven by a fuel counter so that it is
structural (and hence kernel-evaluable); every step consumes at least one
character, so with fuel exceeding the input length the fuel-exhaustion
branch is unreachable. -/
def splitOnFuel (p : Char) (ps : List Char) : Nat → List Char → List Char → List (List Char)
  | 0, s, acc => [acc.reverse ++ s]
  | _ + 1, [], acc => [acc.reverse]
  | fuel + 1, c :: rest, acc =>
    if isPrefixChars (p :: ps) (c :: rest) then
      acc.reverse :: splitOnFuel p ps fuel (rest.drop ps.length) []
    else
      splitOnFuel p ps fuel rest (c :: acc)

/-- Embedding of Python `s.split(pat)` (the empty pattern raises in Python
and is never used by the source; it is mapped to `[s]`). -/
def pySplit (s pat : String) : List String :=
  match pat.data with
  | [] => [s]
  | p :: ps => (splitOnFuel p ps (s.data.length + 1) s.data []).map (fun cs => ⟨cs⟩)

/-- Python `lst[i]` as used by the source on the result of `split`; every use
in the source is guarded so that the index is in range (out-of-range would
raise `IndexError`; the default is never reached in the modelled uses). -/
def pyIndex (l : List String) (i : Nat) : String := l.getD i ""

/-- Embedding of Python `pat in s` (substring containment): a non-empty
pattern occurs in `s` iff `s.split(pat)` has more than one piece. -/
def pyContains (s pat : String) : Bool := 1 < (pySplit s pat).length

/-- Embedding of Python `s.replace(pat, rep)` for a non-empty pattern. -/
def pyReplace (s pat rep : String) : String :=
  ⟨List.intercalate rep.data ((pySplit s pat).map String.data)⟩

/-- Embedding of Python `str.strip()` (whitespace at both ends dropped). -/
def pyStrip (s : String) : String :=
  ⟨((s.data.dropWhile Char.isWhitespace).reverse.dropWhile Char.isWhitespace).reverse⟩

/-- Embedding of `re.sub(c+, c, -)` for a single character `c` (used by
`__scrape_page` for `" +"` and `"\n+"`): collapse runs of `c` to a single
occurrence. -/
def squeezeChar (c : Char) : List Char → List Char
  | [] => []
  | [a] => [a]
  | a :: b :: rest =>
    if a = c && b = c then squeezeChar c (b :: rest)
    else a :: squeezeChar c (b :: rest)

/-- Fuel-driven worker for `dropModMarks`; every step consumes at least one
character, so with fuel exceeding the input length the fuel-exhaustion
branch is unreachable. -/
def dropModFuel : Nat → List Char → List Char
  | 0, s => s
  | _ + 1, [] => []
  | _ + 1, [c] => [c]
  | fuel + 1, c :: d :: ds =>
    if c = Char.ofNat 9658 && !d.isDigit && decide (ds.takeWhile Char.isDigit ≠ []) then
      dropModFuel fuel (ds.dropWhile Char.isDigit)
    else c :: dropModFuel fuel (d :: ds)

/-- Embedding of `re.sub("►\\D\\d+", "", -)` from `__scrape_page`
(scrapelex.py line 284): delete every occurrence of U+25BA followed by one
non-digit and a maximal non-empty digit run, scanning left to right. -/
def dropModMarks (l : List Char) : List Char := dropModFuel (l.length + 1) l

/-! ### Taxonomy Mapper (`__scrape_page`, scrapelex.py lines 185-210) -/

/-- Python `dict` lookup on the static label-mapping table
(`self.label_mappings`), modelled as first-match association-list lookup. -/
def lookupMapping (mappings : List (String × String)) (c : String) : Option String :=
  (mappings.find? (fun p => p.1 = c)).map Prod.snd

/-- The set the `MT` branch of the loop at scrapelex.py lines 201-204 adds to
`mt`: for each leaf classifier present in the mapping table, the mapped value
suffixed with `"_mt"`; unmapped leaf codes contribute nothing. -/
def mtSet (mappings : List (String × String)) (codes : List String) : Finset String :=
  (codes.filterMap (fun c => (lookupMapping mappings c).map (fun v => v ++ "_mt"))).toFinset

/-- The set the `DO` branch of the loop at scrapelex.py lines 205-208 adds to
`do`: for each mapped leaf classifier, the first two characters of the mapped
value suffixed with `"_do"`. -/
def doSet (mappings : List (String × String)) (codes : List String) : Finset String :=
  (codes.filterMap (fun c => (lookupMapping mappings c).map (fun v => v.take 2 ++ "_do"))).toFinset

/-- One iteration of the `for label_type in label_types` loop of
`__scrape_page` (scrapelex.py lines 198-208), acting on the accumulator
`(tc, mt, do)`.  `TC` reassigns `tc` to the raw classifier set, `MT` and `DO`
add their derived codes to `mt` resp. `do`; any other value leaves the
accumulator unchanged (such a value is rejected before the loop runs). -/
def labelStep (codes : List String) (mappings : List (String × String))
    (acc : Finset String × Finset String × Finset String) (lt : String) :
    Finset String × Finset String × Finset String :=
  if lt = "TC" then (codes.toFinset, acc.2.1, acc.2.2)
  else if lt = "MT" then (acc.1, acc.2.1 ∪ mtSet mappings codes, acc.2.2)
  else if lt = "DO" then (acc.1, acc.2.1, acc.2.2 ∪ doSet mappings codes)
  else acc

/-- Embedding of the taxonomy roll-up of `__scrape_page` (scrapelex.py lines
197-210): run the label-type loop from empty `tc`, `mt`, `do` sets and return
`tc.union(mt).union(do)`. -/
def labelRollup (labelTypes : List String) (codes : List String)
    (mappings : List (String × String)) : Finset String :=
  let f := labelTypes.foldl (labelStep codes mappings) (∅, ∅, ∅)
  f.1 ∪ f.2.1 ∪ f.2.2

/-- The specification's description of the taxonomy mapper (spec.md section
4.5): the union over requested granularities, where `TC` (Leaf) contributes
the raw input codes, `MT` (Mid) the mapped values suffixed `"_mt"`, and `DO`
(Domain) the first two characters of the mapped values suffixed `"_do"`.
Stated from the spec's words, to be compared with `labelRollup`. -/
def labelRollupSpec (labelTypes : List String) (codes : List String)
    (mappings : List (String × String)) : Finset String :=
  (if "TC" ∈ labelTypes then codes.toFinset else ∅) ∪
  (if "MT" ∈ labelTypes then mtSet mappings codes else ∅) ∪
  (if "DO" ∈ labelTypes then doSet mappings codes else ∅)

/-! ### Document Extractor (`__scrape_page`, scrapelex.py lines 173-288)

The BeautifulSoup parse tree is consumed by the source as an external
capability; the embedding starts from the already-parsed view `PageModel`.
Everything the source itself decides over that view (layout dispatch, the
child-iteration filters, the text post-processing) is embedded below. -/

/-- One immediate child of the chosen text container, as the loop at
scrapelex.py lines 245-275 distinguishes them by `child.name`: a `p` with its
class list (`[]` when the tag has no class attribute) and text, a `div` with
the texts of all `p` tags nested in it, a `table` with the texts of its rows,
an `hr`, or any other node (contributing nothing). -/
inductive ChildNode
  | para (classes : List String) (text : String)
  | divN (paraTexts : List String)
  | tableN (rowTexts : List String)
  | hrN
  | otherN
deriving DecidableEq

/-- The parsed view of one document page, holding exactly the probes
`__scrape_page` performs on the soup: the classifier panel
(`div#PPClass_Contents` with a `ul`; each list item carries the `href` of its
first anchor, when it has one), the `div#TexteOnly` marker together with its
optional `txt_te` container, the presence of a `p.oj-doc-ti`/`p.doc-ti`
title paragraph, the presence of a `p.disclaimer`, and the children of the
first `div` inside `div#document1 > div.tabContent`. -/
structure PageModel where
  classPanel : Option (List (Option String))
  texteOnly : Option (Option (List ChildNode))
  hasDocTi : Bool
  hasDisclaimer : Bool
  content : List ChildNode
deriving DecidableEq

/-- Layout dispatch of `__scrape_page` (scrapelex.py lines 212-230), in the
source's priority order: the plain-text layout (`div#TexteOnly`, taking its
`txt_te` child, which may be absent) wins over the standard layout
(`p.oj-doc-ti` or `p.doc-ti` present), which wins over the consolidated
layout (`p.disclaimer` present, `consolidated = True`).  `none` means no
text container was found (`text_element` stays `None`). -/
def chooseContainer (pm : PageModel) : Option (List ChildNode × Bool) :=
  match pm.texteOnly with
  | some te => te.map (fun children => (children, false))
  | none =>
    if pm.hasDocTi then some (pm.content, false)
    else if pm.hasDisclaimer then some (pm.content, true)
    else none

/-- Classifier-link classes that the consolidated branch of the child loop
always drops (scrapelex.py lines 248-255). -/
def consolidatedDropClass (classes : List String) : Bool :=
  classes.contains "reference" || classes.contains "disclaimer" ||
  classes.contains "hd-modifiers" || classes.contains "arrow"

/-- The child-iteration loop of `__scrape_page` (scrapelex.py lines 244-275),
with the `skip` flag threaded explicitly (it starts `True`).  Paragraphs:
in consolidated mode, class-filtered paragraphs are dropped and a
`title-doc-first` paragraph clears `skip`; in every mode `footnote`/`modref`
paragraphs are dropped; surviving paragraphs contribute their cleaned text
plus a newline regardless of `skip`.  `div`, `table` and `hr` children are
dropped while `consolidated and skip`; otherwise a `div` contributes the
cleaned text of each nested paragraph, a `table` the cleaned text of each
row, and an `hr` the section separator `"[SEP]"`. -/
def extractLoop (consolidated : Bool) : List ChildNode → Bool → String
  | [], _ => ""
  | ChildNode.para classes text :: cs, skip =>
    if consolidated && consolidatedDropClass classes then
      extractLoop consolidated cs skip
    else
      let skip2 := if consolidated && classes.contains "title-doc-first" then false else skip
      if classes.contains "footnote" || classes.contains "modref" then
        extractLoop consolidated cs skip2
      else cleanText text ++ "\n" ++ extractLoop consolidated cs skip2
  | ChildNode.divN ps :: cs, skip =>
    if consolidated && skip then extractLoop consolidated cs skip
    else String.join (ps.map (fun p => cleanText p ++ "\n")) ++ extractLoop consolidated cs skip
  | ChildNode.tableN rs :: cs, skip =>
    if consolidated && skip then extractLoop consolidated cs skip
    else String.join (rs.map (fun r => cleanText r ++ "\n")) ++ extractLoop consolidated cs skip
  | ChildNode.hrN :: cs, skip =>
    if consolidated && skip then extractLoop consolidated cs skip
    else "[SEP]" ++ extractLoop consolidated cs skip
  | ChildNode.otherN :: cs, skip => extractLoop consolidated cs skip

/-- What the consolidated child loop emits from a run of children containing
no `title-doc-first` paragraph (so `skip` stays set throughout): paragraphs
with a filtered class and `footnote`/`modref` paragraphs are dropped,
`div`/`table`/`hr` children are suppressed by `skip`, and every other
paragraph still contributes its cleaned text — the skip-until-title filter
does not suppress plain paragraphs.  Stated as the corrected description of
the pre-title behaviour, to be compared with `extractLoop`. -/
def preTitleText : List ChildNode → String
  | [] => ""
  | ChildNode.para classes text :: cs =>
    if consolidatedDropClass classes then preTitleText cs
    else if classes.contains "footnote" || classes.contains "modref" then preTitleText cs
    else cleanText text ++ "\n" ++ preTitleText cs
  | _ :: cs => preTitleText cs

/-- Text post-processing of `__scrape_page` (scrapelex.py lines 278-286), in
source order: delete `"◄"` (U+25C4); if `"[SEP]"` occurs, keep only what
follows the first occurrence and delete the remaining occurrences; delete
the `►<non-digit><digits>` editorial marks; collapse space runs and strip;
collapse newline runs and strip. -/
def postProcess (s : String) : String :=
  let s1 : String := ⟨s.data.filter (fun c => c ≠ Char.ofNat 9668)⟩
  let s2 : String :=
    if s1.data.length ≠ 0 && pyContains s1 "[SEP]" then
      String.join ((pySplit s1 "[SEP]").drop 1)
    else s1
  let s3 : String := ⟨dropModMarks s2.data⟩
  let s4 : String := pyStrip ⟨squeezeChar ' ' s3.data⟩
  pyStrip ⟨squeezeChar (Char.ofNat 10) s4.data⟩

/-- Classifier extraction of `__scrape_page` (scrapelex.py lines 189-195):
when the classification panel and its `ul` exist, a list item counts if it
has an anchor whose `href` contains `"DC_CODED="`; the code is
`href.split("DC_CODED=")[1].split("&")[0].strip()`. -/
def extractClassifiers (panel : Option (List (Option String))) : List String :=
  match panel with
  | none => []
  | some items =>
    items.filterMap (fun href? =>
      href?.bind (fun href =>
        if pyContains href "DC_CODED=" then
          some (pyStrip (pyIndex (pySplit (pyIndex (pySplit href "DC_CODED=") 1) "&") 0))
        else none))

/-- The crawl state carried by `EURlexScraper` that is in scope while
`__scrape_page` runs: the configured language, the process-wide cooldown
counter (scrapelex.py line 101), and the static label-mapping table loaded
in `__init__` (lines 116-121).  The HTTP session object is summarised by
`sessionGen` (how many times `__reset_session` has run). -/
structure ScraperState where
  lang : String
  cooldowns : Nat
  sessionGen : Nat
  labelMappings : List (String × String)
deriving DecidableEq

/-- Embedding of `EURlexScraper.__scrape_page` (scrapelex.py lines 173-288)
over the parsed page view: split the comma-separated `label_types` string,
raise `ValueError` on any value outside TC/MT/DO (lines 185-187), extract
the leaf classifiers, roll them up, choose the text container, run the child
loop with `skip = True`, and post-process the assembled text.  The method
reads `self` only through `self.label_mappings` and mutates nothing. -/
def scrapePage (s : ScraperState) (pm : PageModel) (labelTypes : String) :
    Except String (Finset String × String) :=
  let lts := pySplit labelTypes ","
  if lts.any (fun lt => !(lt = "TC" || lt = "MT" || lt = "DO")) then
    Except.error "Invalid label type. Accepted values: TC, MT, DO."
  else
    let codes := extractClassifiers pm.classPanel
    let labels := labelRollup lts codes s.labelMappings
    let text :=
      match chooseContainer pm with
      | none => ""
      | some (children, consolidated) => extractLoop consolidated children true
    Except.ok (labels, postProcess text)

/-! ### Retry/Backoff Controller, document side
(`__get_full_document`, scrapelex.py lines 290-374) -/

/-- What one HTTP attempt can produce: a successful response (its raw text
and its parsed view), a connection-level exception, or a non-ok HTTP status.
The network is an oracle mapping the attempt index to its outcome. -/
inductive FetchOutcome
  | ok (html : String) (page : PageModel)
  | connErr
  | status (code : Nat)
deriving DecidableEq

/-- Observable crawl events: an HTTP request being issued, or an uncaught
exception propagating (aborting the crawl). -/
inductive CrawlEv
  | netRequest (endpoint : String)
  | raiseError (msg : String)
deriving DecidableEq

/-- The value `__get_full_document` returns, together with its side effects
on the durable logs and the sleeps it performed: the raw page text, the
extracted classifiers and full text, the cooldown/backoff sleep durations in
order, and the lines appended to `not_found.txt` and `errors.txt`. -/
structure DocResult where
  html : String
  classifiers : Finset String
  fullText : String
  sleeps : List Nat
  notFoundLog : List String
  errorLog : List String
deriving DecidableEq

/-- The result of `__get_full_document` when the retry budget is exhausted
(`count >= max_retries` after the loop, scrapelex.py lines 364-372): empty
page text, empty classifiers, empty full text, and the endpoint appended to
`errors.txt` when error logging is on. -/
def exhaustedResult (logErrors : Bool) (endpoint : String) : DocResult :=
  { html := "", classifiers := ∅, fullText := "", sleeps := [], notFoundLog := [],
    errorLog := if logErrors then [endpoint] else [] }

/-- The retry loop of `__get_full_document` (scrapelex.py lines 315-362).
The first argument is the remaining retry budget (`max_retries - count`, so
the loop guard `count < max_retries` is `remaining > 0`), the second the
current attempt counter.  A connection error increments `count` and sleeps
60s once `count > 2`, else 1s; a 404 breaks out, appending the endpoint to
`not_found.txt`; any other non-ok status increments `count` and sleeps 60s
once `count > 2`, else `count + 1` seconds (there is no special case for
504 on this path); a successful response scrapes the page when `scrape` is
set, propagating `__scrape_page`'s `ValueError` on an invalid label type.
Each iteration issues one HTTP request, recorded as a `netRequest` event.
(The session-reset bookkeeping on `self.cooldowns`, lines 323-326 and
356-359, only affects which HTTP client later attempts use and is not
otherwise observable here.) -/
def goDoc (s : ScraperState) (labelTypes : String) (scrape logErrors : Bool)
    (endpoint : String) (oracle : Nat → FetchOutcome) :
    Nat → Nat → List CrawlEv × Except String DocResult
  | 0, _ => ([], Except.ok (exhaustedResult logErrors endpoint))
  | remaining + 1, count =>
    match oracle count with
    | FetchOutcome.connErr =>
      let slp := if count + 1 > 2 then 60 else 1
      let out := goDoc s labelTypes scrape logErrors endpoint oracle remaining (count + 1)
      (CrawlEv.netRequest endpoint :: out.1,
        out.2.map (fun r => { r with sleeps := slp :: r.sleeps }))
    | FetchOutcome.status code =>
      if code = 404 then
        ([CrawlEv.netRequest endpoint],
          Except.ok { html := "", classifiers := ∅, fullText := "", sleeps := [],
                      notFoundLog := [endpoint], errorLog := [] })
      else
        let slp := if count + 1 > 2 then 60 else count + 2
        let out := goDoc s labelTypes scrape logErrors endpoint oracle remaining (count + 1)
        (CrawlEv.netRequest endpoint :: out.1,
          out.2.map (fun r => { r with sleeps := slp :: r.sleeps }))
    | FetchOutcome.ok html pm =>
      if scrape then
        match scrapePage s pm labelTypes with
        | Except.error e => ([CrawlEv.netRequest endpoint, CrawlEv.raiseError e], Except.error e)
        | Except.ok (cls, txt) =>
          ([CrawlEv.netRequest endpoint],
            Except.ok { html := html, classifiers := cls, fullText := txt, sleeps := [],
                        notFoundLog := [], errorLog := [] })
      else
        ([CrawlEv.netRequest endpoint],
          Except.ok { html := html, classifiers := ∅, fullText := "", sleeps := [],
                      notFoundLog := [], errorLog := [] })

/-- Embedding of `EURlexScraper.__get_full_document` (scrapelex.py lines
290-374): run the retry loop from `count = 0` with budget `max_retries`. -/
def getFullDocument (s : ScraperState) (endpoint : String) (maxRetries : Nat)
    (logErrors scrape : Bool) (labelTypes : String) (oracle : Nat → FetchOutcome) :
    List CrawlEv × Except String DocResult :=
  goDoc s labelTypes scrape logErrors endpoint oracle maxRetries 0

/-- An attempt outcome on which `__get_full_document` keeps retrying: a
connection-level exception or a non-ok status other than 404. -/
def failOutcome : FetchOutcome → Prop
  | FetchOutcome.connErr => True
  | FetchOutcome.status code => code ≠ 404
  | FetchOutcome.ok _ _ => False

/-! ### Per-page stub loop and skip filter
(`__get_documents_search`, scrapelex.py lines 520-562) -/

/-- A search-result stub: the title and link parsed for one document. -/
structure StubInfo where
  title : String
  link : String
deriving DecidableEq

/-- One entry of the per-partition document map. -/
structure DocRecord where
  title : String
  link : String
  eurovocClassifiers : Finset String
  fullText : String
deriving DecidableEq

/-- The artifact path probed by the skip filter (scrapelex.py lines
526-528): `{directory}/docsHTML/{dirterm}/{doc_id}.html.gz`. -/
def docPath (directory dirterm docId : String) : String :=
  directory ++ "/docsHTML/" ++ dirterm ++ "/" ++ docId ++ ".html.gz"

/-- What the per-page stub loop produces: the document records in stub
order, the ids for which a document fetch was issued, and the checkpoint
writes `(search endpoint, doc endpoint)` in order. -/
structure PageLoopOut where
  records : List (String × DocRecord)
  fetchedIds : List String
  checkpoints : List (String × String)
deriving DecidableEq

/-- Embedding of the `for doc_id, doc_info in documents_in_page.items()`
loop of `__get_documents_search` (scrapelex.py lines 521-562).  Every stub
first gets a record with empty classifier/text placeholders (lines 522-524);
if `skip_existing` is set and the artifact exists on disk the loop moves on
(lines 526-530, a pure existence check on `docPath`); otherwise
`__get_full_document` is called on the link with `AUTO` replaced by
`{LANG}/ALL` (abstracted as the oracle `fetchDoc`, giving the classifier
set and full text it returned), a checkpoint is written, and the record is
filled in.  The filesystem is the oracle `onDisk`. -/
def processStubs (skipExisting : Bool) (onDisk : String → Bool)
    (directory dirterm langUpper searchEndpoint : String)
    (fetchDoc : String → Finset String × String) :
    List (String × StubInfo) → PageLoopOut
  | [] => ⟨[], [], []⟩
  | (docId, info) :: rest =>
    let placeholder : DocRecord := ⟨info.title, info.link, ∅, ""⟩
    if skipExisting && onDisk (docPath directory dirterm docId) then
      let out := processStubs skipExisting onDisk directory dirterm langUpper searchEndpoint fetchDoc rest
      ⟨(docId, placeholder) :: out.records, out.fetchedIds, out.checkpoints⟩
    else
      let endpoint := pyReplace info.link "AUTO" (langUpper ++ "/ALL")
      let fetched := fetchDoc endpoint
      let out := processStubs skipExisting onDisk directory dirterm langUpper searchEndpoint fetchDoc rest
      ⟨(docId, { placeholder with eurovocClassifiers := fetched.1, fullText := fetched.2 }) :: out.records,
        docId :: out.fetchedIds,
        (searchEndpoint, endpoint) :: out.checkpoints⟩

/-! ### Pagination Walker, success-branch step
(`__get_documents_search`, scrapelex.py lines 507-594) -/

/-- The two navigation affordances parsed from a successful search page:
the "has next page" icon (`i.fa.fa-angle-right`, line 576) and the declared
last page number from the double-angle icon (`i.fa.fa-angle-double-right`,
lines 568-574; `none` when the icon is absent). -/
structure SearchPageView where
  hasNextIcon : Bool
  lastPageIcon : Option Nat
deriving DecidableEq

/-- The mutable pagination state inside one partition walk: the current
page, the cached declared total page count (`0` until resolved), and the
search-page retry counter. -/
structure WalkSt where
  page : Nat
  totalPages : Nat
  count : Nat
deriving DecidableEq

/-- What the walker does after handling a successful page: advance to the
next page, sleep and re-request the same page, or end the partition. -/
inductive StepAct
  | advance
  | cooldownRetry (sleep : Nat)
  | endPartition
deriving DecidableEq

/-- The total-page cache update (scrapelex.py lines 567-574): while
`total_pages == 0`, set it from the double-angle icon's `&page=` value, or
to the current page when the icon is absent. -/
def cacheTotal (s : WalkSt) (v : SearchPageView) : Nat :=
  if s.totalPages = 0 then v.lastPageIcon.getD s.page else s.totalPages

/-- The pagination decision of the success branch (scrapelex.py lines
508 and 567-589): on success the retry counter is zeroed (line 508) and the
total-page cache updated; if the "has next" icon is present the page
advances; otherwise, while `page < total_pages or total_pages == 0`, the
walker sleeps 60s and re-requests the same page (lines 579-585, the retry
counter is bumped to 1 and the branch inspects neither the counter nor
`max_retries`, so it has no retry cap); otherwise the partition ends and
the page resets to 1 (lines 587-589). -/
def stepAfterSuccess (s : WalkSt) (v : SearchPageView) : WalkSt × StepAct :=
  let total := cacheTotal s v
  if v.hasNextIcon then
    ({ page := s.page + 1, totalPages := total, count := 0 }, StepAct.advance)
  else if s.page < total ∨ total = 0 then
    ({ page := s.page, totalPages := total, count := 1 }, StepAct.cooldownRetry 60)
  else
    ({ page := 1, totalPages := total, count := 0 }, StepAct.endPartition)

/-! ### Search-page fetch failure handling
(`__get_documents_search`, scrapelex.py lines 595-621) -/

/-- What the non-ok branch of the search-page fetch does: a 60s cooldown
for a 504, a linear-backoff retry, or giving up on the partition (logging
the endpoint to `errors.txt` when enabled). -/
inductive SearchErrAct
  | cooldown504 (sleep : Nat)
  | retrySleep (sleep : Nat)
  | giveUp (logged : Bool)
deriving DecidableEq

/-- Embedding of the non-ok branch of the search-page fetch (scrapelex.py
lines 595-621), returning the new retry counter, the action taken, and
whether the partition walk ends (on `giveUp` the source also resets the
page to 1, line 621).  A 504 sleeps 60s without touching the counter,
before and regardless of the `count < max_retries` test; otherwise while
`count < max_retries` the counter is bumped and the walker sleeps `count`
seconds (the bumped value); otherwise the endpoint is logged and the
partition abandoned. -/
def stepAfterNotOk (statusCode count maxRetries : Nat) (logErrors : Bool) :
    Nat × SearchErrAct × Bool :=
  if statusCode = 504 then (count, SearchErrAct.cooldown504 60, false)
  else if count < maxRetries then (count + 1, SearchErrAct.retrySleep (count + 1), false)
  else (count, SearchErrAct.giveUp logErrors, true)

/-! ### Checkpoint Recorder & Resume Planner
(`get_documents_by_year` lines 837-855, `get_documents_by_category` lines
757-775, `__get_documents_search` lines 477-489 and 589/621) -/

/-- The single overwritten checkpoint record (`checkpoint.json`,
`__save_checkpoint`, scrapelex.py lines 415-432). -/
structure Checkpoint where
  lastSearchEndpoint : String
  lastDocEndpoint : String
deriving DecidableEq

/-- The `resume_params` dictionary both resume blocks build: the page and
partition-term substrings recovered from the checkpointed search URL. -/
structure ResumeParams where
  page : String
  term : String
deriving DecidableEq

/-- The resume-planning block shared by `get_documents_by_year`
(scrapelex.py lines 837-855, `modeParam = "DD_YEAR"`) and
`get_documents_by_category` (lines 757-775, `modeParam = "FM_CODED"`):
a missing checkpoint file raises "Checkpoint unavailable"; a checkpoint
whose `last_search_endpoint` does not contain the mode's query-parameter
name raises "Cannot resume scraping from this checkpoint"; otherwise the
page is `endpoint.split("&page=")[1]` and the term is
`endpoint.split("&<modeParam>=")[1].split("&")[0]`. -/
def planResume (modeParam : String) (checkpoint : Option Checkpoint) :
    Except String ResumeParams :=
  match checkpoint with
  | none => Except.error "Checkpoint unavailable. Please set resume to False"
  | some cp =>
    if pyContains cp.lastSearchEndpoint modeParam then
      Except.ok
        { page := pyIndex (pySplit cp.lastSearchEndpoint "&page=") 1,
          term := pyIndex (pySplit (pyIndex (pySplit cp.lastSearchEndpoint ("&" ++ modeParam ++ "=")) 1) "&") 0 }
    else Except.error "Cannot resume scraping from this checkpoint"

/-- Resume planning of `get_documents_by_year` (mode parameter `DD_YEAR`). -/
def planResumeYear (checkpoint : Option Checkpoint) : Except String ResumeParams :=
  planResume "DD_YEAR" checkpoint

/-- Resume planning of `get_documents_by_category` (mode parameter
`FM_CODED`). -/
def planResumeCategory (checkpoint : Option Checkpoint) : Except String ResumeParams :=
  planResume "FM_CODED" checkpoint

/-- Embedding of Python `int(s)` for the non-negative numeric strings the
walker converts (`page = int(resume_params["page"])`, scrapelex.py line
480); a malformed string raises in Python and is mapped to `none`. -/
def pyInt (s : String) : Option Nat :=
  if s.data ≠ [] && s.data.all Char.isDigit then
    some (s.data.foldl (fun acc c => acc * 10 + (c.toNat - 48)) 0)
  else none

/-- Which partition terms the `for term in terms` loop of
`__get_documents_search` actually walks and at which starting page
(scrapelex.py lines 470-489): with pending resume parameters, every term is
skipped (`continue`, line 482) until the recovered term is reached, which
starts at the recovered page (`page = int(resume_params["page"])`, line
480) and clears the resume parameters; every later term starts at page 1,
because both partition-exit paths reset `page` to 1 (lines 589 and 621). -/
def resumeStartPages : List String → Option ResumeParams → Nat → List (String × Nat)
  | [], _, _ => []
  | t :: ts, some rp, _ =>
    let pg := (pyInt rp.page).getD 0
    if t = rp.term then (t, pg) :: resumeStartPages ts none 1
    else resumeStartPages ts (some rp) pg
  | t :: ts, none, page => (t, page) :: resumeStartPages ts none 1

/-! ### Local batch extractors and per-partition summaries
(`get_documents_local` lines 911-963, `get_documents_local_multiprocess`
lines 965-1032, `__get_documents_search` lines 623-627) -/

/-- The average-classifiers expression of the local batch summaries
(scrapelex.py lines 955 and 1024):
`sum(len(classifiers)) / len(documents)` with no zero guard — a division by
zero raises `ZeroDivisionError`. -/
def averageClassifiers (documents : List (String × DocRecord)) : Except String Rat :=
  if documents.length = 0 then Except.error "ZeroDivisionError: division by zero"
  else
    Except.ok ((documents.map (fun p => (p.2.eurovocClassifiers.card : Rat))).sum /
      (documents.length : Rat))

/-- The network path's summary average (scrapelex.py line 626): the same
quotient, but guarded by `if len(documents[term]) > 0 else 0`. -/
def searchAverageClassifiers (documents : List (String × DocRecord)) : Rat :=
  if documents.length > 0 then
    (documents.map (fun p => (p.2.eurovocClassifiers.card : Rat))).sum /
      (documents.length : Rat)
  else 0

/-- One year of `get_documents_local` (scrapelex.py lines 939-963): each
artifact either parses to a `(doc_id, record)` pair or is malformed
(`scrape_local_core` returns an empty dict, modelled as `none`) and is
excluded; the summary (containing `averageClassifiers`) is printed before
the year's JSON file is written, so a raised `ZeroDivisionError` aborts the
year with nothing written; on success the collected documents are what gets
written to `<year>.json.gz`. -/
def localYearOutput (parsedArtifacts : List (Option (String × DocRecord))) :
    Except String (List (String × DocRecord)) :=
  let documents := parsedArtifacts.filterMap id
  match averageClassifiers documents with
  | Except.error e => Except.error e
  | Except.ok _ => Except.ok documents

/-- One year of `get_documents_local_multiprocess` (scrapelex.py lines
1000-1032): the workers' results are merged and then the same unguarded
summary runs before the year's JSON file is written. -/
def localYearOutputMulti (parsedArtifacts : List (Option (String × DocRecord))) :
    Except String (List (String × DocRecord)) :=
  let documents := parsedArtifacts.filterMap id
  match averageClassifiers documents with
  | Except.error e => Except.error e
  | Except.ok _ => Except.ok documents

/-! ### Configuration-time validation (`__init__` lines 17-121,
`__validate_languages` lines 123-128) -/

/-- The language set of `EURlexScraper.__init__` (scrapelex.py lines
44-69). -/
def langSet : List String :=
  ["bg", "es", "cs", "da", "de", "et", "el", "en", "fr", "ga", "hr", "it",
   "lv", "lt", "hu", "mt", "nl", "pl", "pt", "ro", "sk", "sl", "fi", "sv"]

/-- Embedding of `EURlexScraper.__validate_languages` (scrapelex.py lines
123-128): raise `ValueError` for a language outside the set. -/
def validateLanguages (lang : String) : Except String Unit :=
  if langSet.contains lang then Except.ok ()
  else Except.error ("Invalid language: " ++ lang)

/-- Embedding of `EURlexScraper.__init__` (scrapelex.py lines 17-121): the
log level is checked, then the language is validated, before the session
object and year list are built.  The constructor performs no HTTP request —
it only reads the two bundled data files (`searchTypes.txt` and
`label_mapping.json`, whose parsed content is the `labelMappings`
argument); network activity starts only when a crawl method calls
`__set_cookies`. -/
def initScraper (lang : String) (logLevel : Nat)
    (labelMappings : List (String × String)) : Except String ScraperState :=
  if !(logLevel = 0 || logLevel = 1 || logLevel = 2 || logLevel = 3) then
    Except.error "Invalid log level. Available values: 0, 1, 2."
  else
    match validateLanguages lang with
    | Except.error e => Except.error e
    | Except.ok _ =>
      Except.ok { lang := lang, cooldowns := 0, sessionGen := 0, labelMappings := labelMappings }

/-! ## Helper lemmas -/

theorem labelFold_characterization (codes : List String)
    (mappings : List (String × String)) (lts : List String)
    (tc mt dm : Finset String) :
    lts.foldl (labelStep codes mappings) (tc, mt, dm) =
      ((if "TC" ∈ lts then codes.toFinset else tc),
       mt ∪ (if "MT" ∈ lts then mtSet mappings codes else ∅),
       dm ∪ (if "DO" ∈ lts then doSet mappings codes else ∅)) := by
  induction lts generalizing tc mt dm with
  | nil => simp
  | cons a as ih =>
    simp only [List.foldl_cons, labelStep]
    by_cases hTC : a = "TC"
    · subst hTC
      simp only [if_pos rfl, ih, List.mem_cons, true_or, if_true]
      by_cases h : "TC" ∈ as <;> simp [h]
    · by_cases hMT : a = "MT"
      · subst hMT
        simp only [if_neg (by decide : ¬ ("MT" = "TC")), if_pos rfl, ih]
        by_cases h : "MT" ∈ as <;>
          simp [h, hTC, Finset.union_assoc, Finset.union_self, List.mem_cons]
      · by_cases hDO : a = "DO"
        · subst hDO
          simp only [if_neg (by decide : ¬ ("DO" = "TC")),
            if_neg (by decide : ¬ ("DO" = "MT")), if_pos rfl, ih]
          by_cases h : "DO" ∈ as <;>
            simp [h, hTC, hMT, Finset.union_assoc, Finset.union_self, List.mem_cons]
        · simp only [if_neg hTC, if_neg hMT, if_neg hDO, ih, List.mem_cons]
          have h1 : ¬ "TC" = a := fun h => hTC h.symm
          have h2 : ¬ "MT" = a := fun h => hMT h.symm
          have h3 : ¬ "DO" = a := fun h => hDO h.symm
          simp [h1, h2, h3]

/-! ## Claim C3 -/

/-- Claim C3 (confirmed): for every set of leaf classifier codes and
requested granularities, the taxonomy roll-up is the union over requested
granularities where `TC` (Leaf) contributes the raw input codes, `MT` (Mid)
the lookup value suffixed `"_mt"`, and `DO` (Domain) the first two
characters of the lookup value suffixed `"_do"`, with unmapped leaf codes
silently dropped for Mid/Domain (`labelRollup = labelRollupSpec`); and in
particular the codes `["1015", "2030"]` under the mapping
`1015 -> 10_20, 2030 -> 20_05` with granularities `{MT, DO}` yield exactly
the four codes `10_20_mt, 20_05_mt, 10_do, 20_do`. -/
theorem C3_taxonomy_rollup :
    (∀ (labelTypes codes : List String) (mappings : List (String × String)),
        labelRollup labelTypes codes mappings = labelRollupSpec labelTypes codes mappings) ∧
    labelRollup ["MT", "DO"] ["1015", "2030"] [("1015", "10_20"), ("2030", "20_05")] =
      {"10_20_mt", "20_05_mt", "10_do", "20_do"} := by
  constructor
  · intro lts codes mappings
    rw [labelRollup, labelFold_characterization, labelRollupSpec]
    simp [Finset.empty_union]
  · decide

/-! ## Claim C8 -/

/-- Claim C8 (confirmed): the document extractor is a pure function of the
parsed page and the static label mapping — `__scrape_page` reads the
scraper state only through `self.label_mappings`, so two runs on the same
input under any two crawl states agreeing on the mapping table (whatever
their language, cooldown counter or session) return identical
`(classifiers, text)` results; rerunning it on the same input trivially
reproduces the same value, since it is a function and mutates nothing. -/
theorem C8_extractor_pure (s1 s2 : ScraperState) (pm : PageModel)
    (labelTypes : String) (h : s1.labelMappings = s2.labelMappings) :
    scrapePage s1 pm labelTypes = scrapePage s2 pm labelTypes := by
  simp only [scrapePage, h]

/-- Witness for C8 at a concrete input: two states differing in language,
cooldown counter and session generation but sharing the mapping table give
the same extraction result. -/
theorem C8_extractor_pure_witness :
    scrapePage ⟨"it", 0, 0, [("1015", "10_20")]⟩
        { classPanel := some [some "u?DC_CODED=1015&x=2"], texteOnly := none,
          hasDocTi := true, hasDisclaimer := false,
          content := [ChildNode.para [] "Body"] } "TC,MT" =
      scrapePage ⟨"en", 7, 3, [("1015", "10_20")]⟩
        { classPanel := some [some "u?DC_CODED=1015&x=2"], texteOnly := none,
          hasDocTi := true, hasDisclaimer := false,
          content := [ChildNode.para [] "Body"] } "TC,MT" :=
  C8_extractor_pure ⟨"it", 0, 0, [("1015", "10_20")]⟩ ⟨"en", 7, 3, [("1015", "10_20")]⟩
    { classPanel := some [some "u?DC_CODED=1015&x=2"], texteOnly := none,
      hasDocTi := true, hasDisclaimer := false,
      content := [ChildNode.para [] "Body"] } "TC,MT" rfl

/-! ## Claim C7 -/

/-- Counterexample to claim C7 as stated: in the consolidated layout
(disclaimer marker present, no plain-text or standard marker), a plain
paragraph with no class placed before the `title-doc-first` paragraph is
NOT suppressed — the extracted text is "Hello\nTitle", which retains
content preceding the title paragraph and does not begin at the title
paragraph.  The `skip` flag of `__scrape_page` only suppresses `div`,
`table` and `hr` children; paragraph children are emitted regardless. -/
theorem C7_counterexample :
    scrapePage ⟨"it", 0, 0, []⟩
        { classPanel := none, texteOnly := none, hasDocTi := false, hasDisclaimer := true,
          content := [ChildNode.para [] "Hello",
                      ChildNode.para ["title-doc-first"] "Title",
                      ChildNode.para ["reference"] "Ref"] } "TC" =
      Except.ok (∅, "Hello\nTitle") ∧ "Hello\nTitle" ≠ "Title" :=
  ⟨by decide, by decide⟩

/-- Claim C7 (corrected): for consolidated-layout inputs the dispatch picks
the content container with the consolidated filter on; before the first
`title-doc-first` paragraph, `div`/`table`/`hr` content is suppressed and
paragraphs carrying reference/disclaimer/hd-modifiers/arrow classes or
footnote/modref classes are suppressed, but plain paragraphs are retained
(`extractLoop` over any title-free prefix `l` emits exactly
`preTitleText l`); and the spec's example — a disclaimer-class paragraph
followed by a title-doc-first paragraph followed by a reference-class
paragraph — yields text that excludes the reference paragraph and begins
at the title paragraph. -/
theorem C7_consolidated_extraction (pm : PageModel) (l r : List ChildNode)
    (hte : pm.texteOnly = none) (hti : pm.hasDocTi = false)
    (hdi : pm.hasDisclaimer = true)
    (hl : ∀ classes text, ChildNode.para classes text ∈ l →
      classes.contains "title-doc-first" = false) :
    chooseContainer pm = some (pm.content, true) ∧
    extractLoop true (l ++ r) true = preTitleText l ++ extractLoop true r true ∧
    scrapePage ⟨"it", 0, 0, []⟩
        { classPanel := none, texteOnly := none, hasDocTi := false, hasDisclaimer := true,
          content := [ChildNode.para ["disclaimer"] "Disc",
                      ChildNode.para ["title-doc-first"] "Title",
                      ChildNode.para ["reference"] "Ref"] } "TC" =
      Except.ok (∅, "Title") := by
  refine ⟨?_, ?_, by decide⟩
  · simp [chooseContainer, hte, hti, hdi]
  · induction l with
    | nil => simp [preTitleText]
    | cons a cs ih =>
      have ihcs := ih (fun classes text hmem => hl classes text (List.mem_cons_of_mem a hmem))
      cases a with
      | para classes text =>
        have hnt : "title-doc-first" ∉ classes := by
          have := hl classes text (List.mem_cons_self _ _)
          simpa using this
        by_cases hdrop : consolidatedDropClass classes = true
        · simp [extractLoop, preTitleText, hdrop, ihcs]
        · have hdrop2 : consolidatedDropClass classes = false := by
            revert hdrop; cases consolidatedDropClass classes <;> simp
          by_cases hfn : "footnote" ∈ classes ∨ "modref" ∈ classes
          · simp [extractLoop, preTitleText, hdrop2, hnt, hfn, ihcs]
          · simp [extractLoop, preTitleText, hdrop2, hnt, hfn, ihcs, String.append_assoc]
      | divN ps => simp [extractLoop, preTitleText, ihcs]
      | tableN rs => simp [extractLoop, preTitleText, ihcs]
      | hrN => simp [extractLoop, preTitleText, ihcs]
      | otherN => simp [extractLoop, preTitleText, ihcs]

/-- Witness for C7 at a concrete input: a title-free prefix containing a
`div`, a plain paragraph and an `hr` followed by the title paragraph — the
`div` and `hr` are suppressed, the plain paragraph kept. -/
theorem C7_consolidated_extraction_witness :
    chooseContainer
        { classPanel := none, texteOnly := none, hasDocTi := false, hasDisclaimer := true,
          content := [] } = some ([], true) ∧
    extractLoop true
        ([ChildNode.divN ["D"], ChildNode.para [] "Hello", ChildNode.hrN] ++
          [ChildNode.para ["title-doc-first"] "Title"]) true =
      preTitleText [ChildNode.divN ["D"], ChildNode.para [] "Hello", ChildNode.hrN] ++
        extractLoop true [ChildNode.para ["title-doc-first"] "Title"] true ∧
    scrapePage ⟨"it", 0, 0, []⟩
        { classPanel := none, texteOnly := none, hasDocTi := false, hasDisclaimer := true,
          content := [ChildNode.para ["disclaimer"] "Disc",
                      ChildNode.para ["title-doc-first"] "Title",
                      ChildNode.para ["reference"] "Ref"] } "TC" =
      Except.ok (∅, "Title") :=
  C7_consolidated_extraction
    { classPanel := none, texteOnly := none, hasDocTi := false, hasDisclaimer := true,
      content := [] }
    [ChildNode.divN ["D"], ChildNode.para [] "Hello", ChildNode.hrN]
    [ChildNode.para ["title-doc-first"] "Title"]
    rfl rfl rfl
    (by
      intro classes text hmem
      simp at hmem
      obtain ⟨h1, h2⟩ := hmem
      subst h1
      decide)

/-! ## Claim C5 -/

theorem goDoc_allFail (s : ScraperState) (labelTypes : String)
    (scrape logErrors : Bool) (endpoint : String) (oracle : Nat → FetchOutcome) :
    ∀ (remaining count : Nat),
      (∀ i, count ≤ i → i < count + remaining → failOutcome (oracle i)) →
      ∃ r, (goDoc s labelTypes scrape logErrors endpoint oracle remaining count).2 = Except.ok r ∧
        r.html = "" ∧ r.classifiers = ∅ ∧ r.fullText = "" ∧ r.notFoundLog = [] ∧
        r.errorLog = (if logErrors then [endpoint] else []) := by
  intro remaining
  induction remaining with
  | zero =>
    intro count h
    exact ⟨exhaustedResult logErrors endpoint, rfl, rfl, rfl, rfl, rfl, rfl⟩
  | succ rem ih =>
    intro count h
    have hc : failOutcome (oracle count) := h count le_rfl (by omega)
    cases hoc : oracle count with
    | ok html pm =>
      rw [hoc] at hc
      exact absurd hc (by simp [failOutcome])
    | connErr =>
      obtain ⟨r, hr, h1, h2, h3, h4, h5⟩ :=
        ih (count + 1) (fun i hi1 hi2 => h i (by omega) (by omega))
      refine ⟨{ r with sleeps := (if count + 1 > 2 then 60 else 1) :: r.sleeps },
        ?_, h1, h2, h3, h4, h5⟩
      simp [goDoc, hoc, hr, Except.map]
    | status code =>
      rw [hoc] at hc
      have hcode : code ≠ 404 := hc
      obtain ⟨r, hr, h1, h2, h3, h4, h5⟩ :=
        ih (count + 1) (fun i hi1 hi2 => h i (by omega) (by omega))
      refine ⟨{ r with sleeps := (if count + 1 > 2 then 60 else count + 2) :: r.sleeps },
        ?_, h1, h2, h3, h4, h5⟩
      simp [goDoc, hoc, hcode, hr, Except.map]

/-- Claim C5 (confirmed): once `max_retries` consecutive failed attempts
(connection errors or non-404 bad statuses) have occurred, the document
fetch fails permanently — it returns an empty page body with empty
classifiers and empty text and appends the endpoint to the `errors.txt`
sink exactly when error logging is on; and the per-page stub loop always
produces a record for every stub (whatever each fetch returned), so the
crawl continues with the next item rather than stopping. -/
theorem C5_permanent_failure (s : ScraperState) (endpoint labelTypes : String)
    (maxRetries : Nat) (logErrors scrape : Bool) (oracle : Nat → FetchOutcome)
    (hfail : ∀ i, i < maxRetries → failOutcome (oracle i)) :
    (∃ r, (getFullDocument s endpoint maxRetries logErrors scrape labelTypes oracle).2 =
        Except.ok r ∧
      r.html = "" ∧ r.classifiers = ∅ ∧ r.fullText = "" ∧
      r.errorLog = (if logErrors then [endpoint] else [])) ∧
    (∀ (skipExisting : Bool) (onDisk : String → Bool)
        (directory dirterm langUpper sep : String)
        (fetchDoc : String → Finset String × String) (stubs : List (String × StubInfo)),
      (processStubs skipExisting onDisk directory dirterm langUpper sep fetchDoc
          stubs).records.map Prod.fst = stubs.map Prod.fst) := by
  constructor
  · obtain ⟨r, hr, h1, h2, h3, h4, h5⟩ :=
      goDoc_allFail s labelTypes scrape logErrors endpoint oracle maxRetries 0
        (fun i hi1 hi2 => hfail i (by omega))
    exact ⟨r, hr, h1, h2, h3, h5⟩
  · intro skipExisting onDisk directory dirterm langUpper sep fetchDoc stubs
    induction stubs with
    | nil => rfl
    | cons a rest ih =>
      obtain ⟨docId, info⟩ := a
      by_cases hc : (skipExisting && onDisk (docPath directory dirterm docId)) = true
      · simp [processStubs, hc, ih]
      · simp [processStubs, hc, ih]

/-- Witness for C5 at a concrete input: three consecutive connection errors
against a budget of three retries exhaust the fetch, and a two-stub page
still yields both records. -/
theorem C5_permanent_failure_witness :
    (∃ r, (getFullDocument ⟨"it", 0, 0, []⟩ "ep" 3 true true "TC"
        (fun _ => FetchOutcome.connErr)).2 = Except.ok r ∧
      r.html = "" ∧ r.classifiers = ∅ ∧ r.fullText = "" ∧
      r.errorLog = (if true then ["ep"] else [])) ∧
    (processStubs true (fun _ => false) "d" "2020" "IT" "sep" (fun _ => (∅, ""))
        [("a", ⟨"t1", "l1"⟩), ("b", ⟨"t2", "l2"⟩)]).records.map Prod.fst = ["a", "b"] := by
  have h := C5_permanent_failure ⟨"it", 0, 0, []⟩ "ep" "TC" 3 true true
    (fun _ => FetchOutcome.connErr) (fun i _ => trivial)
  exact ⟨h.1, (h.2 true (fun _ => false) "d" "2020" "IT" "sep" (fun _ => (∅, ""))
    [("a", ⟨"t1", "l1"⟩), ("b", ⟨"t2", "l2"⟩)]).trans (by decide)⟩

/-! ## Claim C6 -/

/-- Counterexample to claim C6 as stated: at the individual-document fetch
call site there is no special case for HTTP 504.  With every attempt
returning status 504 under a budget of three retries, the three cooldown
sleeps are 2s, 3s and 60s — the first 504 sleeps 2 seconds, not 60, so a
504 does not always trigger a 60-second cooldown at every fetch call
site. -/
theorem C6_counterexample :
    (getFullDocument ⟨"it", 0, 0, []⟩ "ep" 3 true true "TC"
        (fun _ => FetchOutcome.status 504)).2 =
      Except.ok { html := "", classifiers := ∅, fullText := "", sleeps := [2, 3, 60],
                  notFoundLog := [], errorLog := ["ep"] } ∧ (2 : Nat) ≠ 60 :=
  ⟨by decide, by decide⟩

/-- Claim C6 (corrected): at search-page fetch sites an HTTP 504 always
triggers a 60-second cooldown, regardless of the attempt counter (and
without touching it); at individual-document fetch sites a 504 is treated
like any other non-404 failure — the attempt counter is bumped and the
sleep is `count + 1` seconds (the bumped counter plus one) for the first
two attempts and 60 seconds only from the third attempt on. -/
theorem C6_504_cooldown (count maxRetries : Nat) (logErrors : Bool)
    (s : ScraperState) (labelTypes endpoint : String) (scrape logErrors2 : Bool)
    (oracle : Nat → FetchOutcome) (remaining count2 : Nat)
    (h504 : oracle count2 = FetchOutcome.status 504) :
    stepAfterNotOk 504 count maxRetries logErrors =
      (count, SearchErrAct.cooldown504 60, false) ∧
    goDoc s labelTypes scrape logErrors2 endpoint oracle (remaining + 1) count2 =
      (CrawlEv.netRequest endpoint ::
        (goDoc s labelTypes scrape logErrors2 endpoint oracle remaining (count2 + 1)).1,
       (goDoc s labelTypes scrape logErrors2 endpoint oracle remaining (count2 + 1)).2.map
         (fun r => { r with sleeps := (if count2 + 1 > 2 then 60 else count2 + 2) :: r.sleeps })) := by
  constructor
  · simp [stepAfterNotOk]
  · simp [goDoc, h504]

/-- Witness for C6 at a concrete input. -/
theorem C6_504_cooldown_witness :
    stepAfterNotOk 504 0 10 true = (0, SearchErrAct.cooldown504 60, false) ∧
    goDoc ⟨"it", 0, 0, []⟩ "TC" true true "ep" (fun _ => FetchOutcome.status 504) 3 0 =
      (CrawlEv.netRequest "ep" ::
        (goDoc ⟨"it", 0, 0, []⟩ "TC" true true "ep" (fun _ => FetchOutcome.status 504) 2 1).1,
       (goDoc ⟨"it", 0, 0, []⟩ "TC" true true "ep" (fun _ => FetchOutcome.status 504) 2 1).2.map
         (fun r => { r with sleeps := (if 0 + 1 > 2 then 60 else 0 + 2) :: r.sleeps })) :=
  C6_504_cooldown 0 10 true ⟨"it", 0, 0, []⟩ "TC" "ep" true true
    (fun _ => FetchOutcome.status 504) 2 0 rfl

/-! ## Claim C2 -/

theorem processStubs_fetched_mem (skipExisting : Bool) (onDisk : String → Bool)
    (directory dirterm langUpper sep : String)
    (fetchDoc : String → Finset String × String)
    (stubs : List (String × StubInfo)) (x : String)
    (hx : x ∈ (processStubs skipExisting onDisk directory dirterm langUpper sep
        fetchDoc stubs).fetchedIds) :
    x ∈ stubs.map Prod.fst := by
  induction stubs with
  | nil => simp [processStubs] at hx
  | cons a rest ih =>
    obtain ⟨d, i⟩ := a
    by_cases hc : (skipExisting && onDisk (docPath directory dirterm d)) = true
    · simp only [processStubs, hc, if_true] at hx
      exact List.mem_cons_of_mem _ (ih hx)
    · simp only [processStubs, hc, if_false, Bool.false_eq_true, List.mem_cons] at hx
      rcases hx with h | h
      · subst h
        exact List.mem_cons_self _ _
      · exact List.mem_cons_of_mem _ (ih h)

/-- Claim C2 (confirmed): with `skip_existing` enabled, for every stub of a
page whose artifact `docsHTML/<partition>/<doc_id>.html.gz` already exists
on disk (a pure existence check on exactly that path), the stub loop never
invokes the document fetch for that `doc_id`, and its record keeps the
empty classifier/text placeholders; the loop then moves on to the
remaining stubs. -/
theorem C2_skip_filter (skipExisting : Bool) (onDisk : String → Bool)
    (directory dirterm langUpper sep : String)
    (fetchDoc : String → Finset String × String)
    (stubs : List (String × StubInfo)) (docId : String) (info : StubInfo)
    (hmem : (docId, info) ∈ stubs) (hnodup : (stubs.map Prod.fst).Nodup)
    (hskip : skipExisting = true)
    (hdisk : onDisk (docPath directory dirterm docId) = true) :
    docId ∉ (processStubs skipExisting onDisk directory dirterm langUpper sep
        fetchDoc stubs).fetchedIds ∧
    (docId, (⟨info.title, info.link, ∅, ""⟩ : DocRecord)) ∈
      (processStubs skipExisting onDisk directory dirterm langUpper sep
        fetchDoc stubs).records := by
  subst hskip
  induction stubs with
  | nil => simp at hmem
  | cons a rest ih =>
    obtain ⟨d, i⟩ := a
    simp only [List.map_cons, List.nodup_cons] at hnodup
    obtain ⟨hdnotin, hnodup2⟩ := hnodup
    rcases List.mem_cons.mp hmem with heq | hmem2
    · injection heq with hd hi
      subst hd
      subst hi
      have hcond : (true && onDisk (docPath directory dirterm docId)) = true := by
        simp [hdisk]
      constructor
      · intro hin
        simp only [processStubs, hcond, if_true] at hin
        exact hdnotin (processStubs_fetched_mem true onDisk directory dirterm
          langUpper sep fetchDoc rest docId hin)
      · simp [processStubs, hcond]
    · have ihres := ih hmem2 hnodup2
      have hdocin : docId ∈ rest.map Prod.fst :=
        List.mem_map_of_mem Prod.fst hmem2
      by_cases hc : (true && onDisk (docPath directory dirterm d)) = true
      · constructor
        · intro hin
          simp only [processStubs, hc, if_true] at hin
          exact ihres.1 hin
        · simp only [processStubs, hc, if_true, List.mem_cons]
          right
          exact ihres.2
      · constructor
        · intro hin
          simp only [processStubs, hc, if_false, Bool.false_eq_true, List.mem_cons] at hin
          rcases hin with h | h
          · subst h
            exact hdnotin hdocin
          · exact ihres.1 h
        · simp only [processStubs, hc, if_false, Bool.false_eq_true, List.mem_cons]
          right
          exact ihres.2

/-- Witness for C2 at a concrete input: on a two-stub page where only the
artifact of stub "a" is on disk, "a" is never fetched and keeps its
placeholder record. -/
theorem C2_skip_filter_witness :
    "a" ∉ (processStubs true (fun p => p == docPath "d" "2020" "a") "d" "2020" "IT" "sep"
        (fun _ => ({"x"}, "body")) [("a", ⟨"t", "lA"⟩), ("b", ⟨"u", "lB"⟩)]).fetchedIds ∧
    ("a", (⟨"t", "lA", ∅, ""⟩ : DocRecord)) ∈
      (processStubs true (fun p => p == docPath "d" "2020" "a") "d" "2020" "IT" "sep"
        (fun _ => ({"x"}, "body")) [("a", ⟨"t", "lA"⟩), ("b", ⟨"u", "lB"⟩)]).records :=
  C2_skip_filter true (fun p => p == docPath "d" "2020" "a") "d" "2020" "IT" "sep"
    (fun _ => ({"x"}, "body")) [("a", ⟨"t", "lA"⟩), ("b", ⟨"u", "lB"⟩)] "a" ⟨"t", "lA"⟩
    (by decide) (by decide) rfl (by decide)

/-! ## Claim C4 -/

/-- Claim C4 (confirmed): after a successful search-page fetch, if the
"has next" affordance is absent but the current page is below the declared
total page count (or the total is unknown, i.e. 0), the walker performs a
60-second cooldown and re-requests the same page — the page is not
advanced, and the branch holds for every value of the retry counter and
consults no retry bound; the partition ends exactly when the affordance is
absent, the page has reached the (known, non-zero) total — and then the
page is reset to 1 for the next partition key. -/
theorem C4_walker_termination (s : WalkSt) (v : SearchPageView) :
    (v.hasNextIcon = false → (s.page < cacheTotal s v ∨ cacheTotal s v = 0) →
      stepAfterSuccess s v =
        ({ page := s.page, totalPages := cacheTotal s v, count := 1 },
          StepAct.cooldownRetry 60)) ∧
    ((stepAfterSuccess s v).2 = StepAct.endPartition ↔
      (v.hasNextIcon = false ∧ cacheTotal s v ≤ s.page ∧ cacheTotal s v ≠ 0)) ∧
    ((stepAfterSuccess s v).2 = StepAct.endPartition →
      (stepAfterSuccess s v).1.page = 1) := by
  refine ⟨?_, ⟨?_, ?_⟩, ?_⟩
  · intro h1 h2
    simp [stepAfterSuccess, h1, h2]
  · intro h
    by_cases hni : v.hasNextIcon = true
    · simp [stepAfterSuccess, hni] at h
    · have hni2 : v.hasNextIcon = false := by
        revert hni; cases v.hasNextIcon <;> simp
      by_cases hcond : s.page < cacheTotal s v ∨ cacheTotal s v = 0
      · simp [stepAfterSuccess, hni2, hcond] at h
      · push_neg at hcond
        exact ⟨hni2, hcond.1, hcond.2⟩
  · rintro ⟨h1, h2, h3⟩
    have hcond : ¬(s.page < cacheTotal s v ∨ cacheTotal s v = 0) := by
      push_neg
      exact ⟨h2, h3⟩
    simp [stepAfterSuccess, h1, hcond]
  · intro h
    by_cases hni : v.hasNextIcon = true
    · simp [stepAfterSuccess, hni] at h
    · have hni2 : v.hasNextIcon = false := by
        revert hni; cases v.hasNextIcon <;> simp
      by_cases hcond : s.page < cacheTotal s v ∨ cacheTotal s v = 0
      · simp [stepAfterSuccess, hni2, hcond] at h
      · simp [stepAfterSuccess, hni2, hcond]

/-- Witness for C4 at concrete inputs: at page 3 of 10 with the next-page
icon absent the walker cools down on the same page (whatever the retry
counter, here 7); at page 10 of 10 it ends the partition and resets the
page to 1. -/
theorem C4_walker_termination_witness :
    stepAfterSuccess ⟨3, 10, 7⟩ ⟨false, none⟩ =
      ({ page := 3, totalPages := 10, count := 1 }, StepAct.cooldownRetry 60) ∧
    (stepAfterSuccess ⟨10, 10, 7⟩ ⟨false, none⟩).2 = StepAct.endPartition ∧
    (stepAfterSuccess ⟨10, 10, 7⟩ ⟨false, none⟩).1.page = 1 :=
  ⟨(C4_walker_termination ⟨3, 10, 7⟩ ⟨false, none⟩).1 rfl (by decide),
   (C4_walker_termination ⟨10, 10, 7⟩ ⟨false, none⟩).2.1.mpr
     ⟨rfl, by decide, by decide⟩,
   (C4_walker_termination ⟨10, 10, 7⟩ ⟨false, none⟩).2.2
     ((C4_walker_termination ⟨10, 10, 7⟩ ⟨false, none⟩).2.1.mpr
       ⟨rfl, by decide, by decide⟩)⟩

/-! ## Claim C1 -/

theorem resumeStartPages_none_one (ts : List String) :
    resumeStartPages ts none 1 = ts.map (fun t => (t, 1)) := by
  induction ts with
  | nil => rfl
  | cons a rest ih => simp [resumeStartPages, ih]

theorem resumeStartPages_skip (rp : ResumeParams) (post : List String) :
    ∀ pre : List String, rp.term ∉ pre → ∀ start : Nat,
      resumeStartPages (pre ++ rp.term :: post) (some rp) start =
        (rp.term, (pyInt rp.page).getD 0) :: post.map (fun t => (t, 1)) := by
  intro pre
  induction pre with
  | nil =>
    intro _ start
    simp [resumeStartPages, resumeStartPages_none_one]
  | cons a rest ih =>
    intro hpre start
    have hne : ¬ a = rp.term := fun he => hpre (by simp [he])
    simp [resumeStartPages, hne,
      ih (fun hm => hpre (List.mem_cons_of_mem a hm)) ((pyInt rp.page).getD 0)]

/-- Claim C1 (confirmed): when resume is requested, planning fails with the
"Checkpoint unavailable" error if no checkpoint file exists, and with the
"Cannot resume" error if the checkpoint was written under the other
enumeration mode — detected by whether `DD_YEAR` (year mode) respectively
`FM_CODED` (category mode) occurs in `last_search_endpoint`; otherwise the
recovered page and term substrings are returned, and the walker skips every
partition key preceding the recovered one, starts the recovered key at the
recovered page number instead of page 1, and walks every later key from
page 1. -/
theorem C1_resume_contract (cpY cpC : Checkpoint) (pre post : List String)
    (rp : ResumeParams)
    (hY : pyContains cpY.lastSearchEndpoint "DD_YEAR" = false)
    (hC : pyContains cpC.lastSearchEndpoint "FM_CODED" = false)
    (hpre : rp.term ∉ pre) :
    planResumeYear none =
      Except.error "Checkpoint unavailable. Please set resume to False" ∧
    planResumeCategory none =
      Except.error "Checkpoint unavailable. Please set resume to False" ∧
    planResumeYear (some cpY) =
      Except.error "Cannot resume scraping from this checkpoint" ∧
    planResumeCategory (some cpC) =
      Except.error "Cannot resume scraping from this checkpoint" ∧
    (∀ cp : Checkpoint, pyContains cp.lastSearchEndpoint "DD_YEAR" = true →
      planResumeYear (some cp) = Except.ok
        { page := pyIndex (pySplit cp.lastSearchEndpoint "&page=") 1,
          term := pyIndex (pySplit
            (pyIndex (pySplit cp.lastSearchEndpoint "&DD_YEAR=") 1) "&") 0 }) ∧
    resumeStartPages (pre ++ rp.term :: post) (some rp) 1 =
      (rp.term, (pyInt rp.page).getD 0) :: post.map (fun t => (t, 1)) := by
  refine ⟨rfl, rfl, ?_, ?_, ?_, resumeStartPages_skip rp post pre hpre 1⟩
  · simp [planResumeYear, planResume, hY]
  · simp [planResumeCategory, planResume, hC]
  · intro cp hcp
    simp [planResumeYear, planResume, hcp]

/-- Witness for C1 at concrete inputs: a checkpoint written in category
mode cannot seed a year-mode resume and vice versa; a well-formed year
checkpoint is parsed into its page and year; and resuming `2020` at page 7
over the year list `[2022, 2021, 2020, 2019]` walks `2020` from page 7 and
`2019` from page 1, skipping `2022` and `2021`. -/
theorem C1_resume_contract_witness :
    planResumeYear none =
      Except.error "Checkpoint unavailable. Please set resume to False" ∧
    planResumeCategory none =
      Except.error "Checkpoint unavailable. Please set resume to False" ∧
    planResumeYear (some ⟨"u?a=1&FM_CODED=TREATY&qid=5&page=7", "d"⟩) =
      Except.error "Cannot resume scraping from this checkpoint" ∧
    planResumeCategory (some ⟨"u?a=1&DD_YEAR=2020&qid=5&page=7", "d"⟩) =
      Except.error "Cannot resume scraping from this checkpoint" ∧
    planResumeYear (some ⟨"u?a=1&DD_YEAR=2020&qid=5&page=7", "d"⟩) =
      Except.ok { page := "7", term := "2020" } ∧
    resumeStartPages (["2022", "2021"] ++ "2020" :: ["2019"])
        (some { page := "7", term := "2020" }) 1 =
      ("2020", 7) :: [("2019", 1)] := by
  have h := C1_resume_contract ⟨"u?a=1&FM_CODED=TREATY&qid=5&page=7", "d"⟩
    ⟨"u?a=1&DD_YEAR=2020&qid=5&page=7", "d"⟩ ["2022", "2021"] ["2019"]
    { page := "7", term := "2020" } (by decide) (by decide) (by decide)
  refine ⟨h.1, h.2.1, h.2.2.1, h.2.2.2.1, ?_, ?_⟩
  · exact (h.2.2.2.2.1 ⟨"u?a=1&DD_YEAR=2020&qid=5&page=7", "d"⟩ (by decide)).trans
      (by decide)
  · exact h.2.2.2.2.2.trans (by decide)

/-! ## Claim C9 -/

/-- Counterexample to claim C9 as stated: an invalid label-granularity value
is not rejected before network activity.  With label type `"XX"`, a
document fetch whose first attempt succeeds issues its HTTP request
(`netRequest`) first and only then raises the "Invalid label type" error
from `__scrape_page` — the validation sits inside the scrape step, which
runs after the fetch, not at configuration time. -/
theorem C9_counterexample :
    getFullDocument ⟨"it", 0, 0, []⟩ "ep" 10 true true "XX"
        (fun _ => FetchOutcome.ok "h"
          { classPanel := none, texteOnly := none, hasDocTi := false,
            hasDisclaimer := false, content := [] }) =
      ([CrawlEv.netRequest "ep",
        CrawlEv.raiseError "Invalid label type. Accepted values: TC, MT, DO."],
       Except.error "Invalid label type. Accepted values: TC, MT, DO.") := by
  decide

/-- Claim C9 (corrected): an unknown language is rejected fatally at
construction time (the constructor performs no network activity); an
unknown label-granularity value, however, is rejected only inside
`__scrape_page` — in the network path the raise happens after the
successful document fetch that triggered scraping, i.e. after HTTP
requests have been issued, not at configuration time. -/
theorem C9_validation_timing (lang : String) (logLevel : Nat)
    (mappings : List (String × String)) (labelTypes : String)
    (hlang : langSet.contains lang = false)
    (hlog : logLevel = 0 ∨ logLevel = 1 ∨ logLevel = 2 ∨ logLevel = 3)
    (hlt : (pySplit labelTypes ",").any
      (fun lt => !(lt = "TC" || lt = "MT" || lt = "DO")) = true) :
    initScraper lang logLevel mappings =
      Except.error ("Invalid language: " ++ lang) ∧
    (∀ (s : ScraperState) (pm : PageModel),
      scrapePage s pm labelTypes =
        Except.error "Invalid label type. Accepted values: TC, MT, DO.") ∧
    (∀ (s : ScraperState) (endpoint html : String) (pm : PageModel)
        (m : Nat) (logErrors : Bool) (oracle : Nat → FetchOutcome),
      oracle 0 = FetchOutcome.ok html pm →
      (getFullDocument s endpoint (m + 1) logErrors true labelTypes oracle).1 =
        [CrawlEv.netRequest endpoint,
          CrawlEv.raiseError "Invalid label type. Accepted values: TC, MT, DO."]) := by
  have hlang2 : lang ∉ langSet := by simpa using hlang
  have hlt2 : ∃ x ∈ pySplit labelTypes ",", (¬x = "TC" ∧ ¬x = "MT") ∧ ¬x = "DO" := by
    simpa using hlt
  refine ⟨?_, ?_, ?_⟩
  · rcases hlog with h | h | h | h <;>
      subst h <;> simp [initScraper, validateLanguages, hlang2]
  · intro s pm
    simp [scrapePage, hlt2]
  · intro s endpoint html pm m logErrors oracle hok
    have h2 : scrapePage s pm labelTypes =
        Except.error "Invalid label type. Accepted values: TC, MT, DO." := by
      simp [scrapePage, hlt2]
    simp [getFullDocument, goDoc, hok, h2]

/-- Witness for C9 at concrete inputs: language `"xx"` is rejected by the
constructor, and label type `"XX"` is rejected by the scrape step after
the document fetch has already issued its request. -/
theorem C9_validation_timing_witness :
    initScraper "xx" 2 [] = Except.error ("Invalid language: " ++ "xx") ∧
    scrapePage ⟨"it", 0, 0, []⟩
        { classPanel := none, texteOnly := none, hasDocTi := false,
          hasDisclaimer := false, content := [] } "XX" =
      Except.error "Invalid label type. Accepted values: TC, MT, DO." ∧
    (getFullDocument ⟨"it", 0, 0, []⟩ "ep" (9 + 1) true true "XX"
        (fun _ => FetchOutcome.ok "h"
          { classPanel := none, texteOnly := none, hasDocTi := false,
            hasDisclaimer := false, content := [] })).1 =
      [CrawlEv.netRequest "ep",
        CrawlEv.raiseError "Invalid label type. Accepted values: TC, MT, DO."] := by
  have h := C9_validation_timing "xx" 2 [] "XX" (by decide) (Or.inr (Or.inr (Or.inl rfl)))
    (by decide)
  exact ⟨h.1,
    h.2.1 ⟨"it", 0, 0, []⟩
      { classPanel := none, texteOnly := none, hasDocTi := false,
        hasDisclaimer := false, content := [] },
    h.2.2 ⟨"it", 0, 0, []⟩ "ep" "h"
      { classPanel := none, texteOnly := none, hasDocTi := false,
        hasDisclaimer := false, content := [] } 9 true
      (fun _ => FetchOutcome.ok "h"
        { classPanel := none, texteOnly := none, hasDocTi := false,
          hasDisclaimer := false, content := [] }) rfl⟩

/-! ## Claim C10 -/

/-- Claim C10 (confirmed): in the local batch extractors the per-year
summary divides the classifier total by the number of scraped documents
without a zero guard, so for every year whose directory yields zero
successfully parsed artifacts (empty directory, or every artifact
malformed and excluded), both `get_documents_local` and
`get_documents_local_multiprocess` raise `ZeroDivisionError` before the
year's JSON output would be written — while the network path's equivalent
summary guards the division with a non-empty check and returns 0. -/
theorem C10_local_zero_division (parsed : List (Option (String × DocRecord)))
    (h : parsed.filterMap id = []) :
    localYearOutput parsed = Except.error "ZeroDivisionError: division by zero" ∧
    localYearOutputMulti parsed = Except.error "ZeroDivisionError: division by zero" ∧
    (∀ documents : List (String × DocRecord), documents.length = 0 →
      searchAverageClassifiers documents = 0) := by
  refine ⟨?_, ?_, ?_⟩
  · simp [localYearOutput, averageClassifiers, h]
  · simp [localYearOutputMulti, averageClassifiers, h]
  · intro documents hd
    simp [searchAverageClassifiers, hd]

/-- Witness for C10 at a concrete input: a year with a single malformed
artifact raises on both local paths while the guarded network summary
returns 0 on an empty partition. -/
theorem C10_local_zero_division_witness :
    localYearOutput [none] = Except.error "ZeroDivisionError: division by zero" ∧
    localYearOutputMulti [none] = Except.error "ZeroDivisionError: division by zero" ∧
    searchAverageClassifiers [] = 0 := by
  have h := C10_local_zero_division [none] (by decide)
  exact ⟨h.1, h.2.1, h.2.2 [] rfl⟩

end Scrapelex
